import Mathlib

/-!
Shallow embedding of the mpi-traffic repository (Rust) in Lean 4.

The embedded code comes from:
- `src/model/common.rs`: direction primitives, `TurnRule` bit-set, `Around<T>`;
- `src/view/mod.rs`: the `View` drawing functions relevant to the claims;
- `src/main.rs`: the event loop structure.

The controller and city modules are not part of the provided sources; where a
claim depends on them, the corresponding definitions are modelled from the
specification and marked `Modelled from the spec:` in their doc comments.
-/

namespace MpiTraffic

/-- Rust `AbsoluteDirection` from `src/model/common.rs` lines 16-22. -/
inductive AbsoluteDirection where
  | North
  | West
  | South
  | East
deriving DecidableEq, Repr, Fintype

/-- Rust `RelativeDirection` from `src/model/common.rs` lines 24-30. -/
inductive RelativeDirection where
  | Front
  | Right
  | Back
  | Left
deriving DecidableEq, Repr, Fintype

namespace AbsoluteDirection

/-- Rust `AbsoluteDirection::turn_opposite`, `src/model/common.rs` lines 33-41. -/
def turn_opposite : AbsoluteDirection → AbsoluteDirection
  | East => West
  | West => East
  | North => South
  | South => North

/-- Rust `AbsoluteDirection::turn_left`, `src/model/common.rs` lines 43-51. -/
def turn_left : AbsoluteDirection → AbsoluteDirection
  | East => South
  | West => North
  | North => East
  | South => West

/-- Rust `AbsoluteDirection::turn_right`, `src/model/common.rs` lines 53-61. -/
def turn_right : AbsoluteDirection → AbsoluteDirection
  | East => North
  | West => South
  | North => West
  | South => East

/-- Rust `AbsoluteDirection::turn`, `src/model/common.rs` lines 63-72. -/
def turn (self : AbsoluteDirection) : RelativeDirection → AbsoluteDirection
  | .Left => self.turn_left
  | .Right => self.turn_right
  | .Front => self
  | .Back => self.turn_opposite

/-- Rust `AbsoluteDirection::should_turn`, `src/model/common.rs` lines 74-86:
a chain of equality tests returning the relative direction that turns
`self` into `other`, with `Back` as the fall-through case. -/
def should_turn (self other : AbsoluteDirection) : RelativeDirection :=
  if self = other then .Front
  else if self.turn_left = other then .Left
  else if self.turn_right = other then .Right
  else .Back

end AbsoluteDirection

/-- Rust `HorizontalOrVertical` from `src/model/common.rs` lines 97-101 (re-exported
as `AxisDirection` in the view module). -/
inductive HorizontalOrVertical where
  | Horizontal
  | Vertical
deriving DecidableEq, Repr, Fintype

/-- The view module imports this type under the name `AxisDirection`. -/
abbrev AxisDirection := HorizontalOrVertical

/-- Rust `LaneDirection` from `src/model/common.rs` lines 103-107. -/
inductive LaneDirection where
  | LowToHigh
  | HighToLow
deriving DecidableEq, Repr, Fintype

/-- Rust `AbsoluteDirection::of_lane`, `src/model/common.rs` lines 109-125. -/
def AbsoluteDirection.of_lane :
    HorizontalOrVertical → LaneDirection → AbsoluteDirection
  | .Horizontal, .LowToHigh => .West
  | .Horizontal, .HighToLow => .East
  | .Vertical, .LowToHigh => .South
  | .Vertical, .HighToLow => .North

/-- Rust `TurnRule` from `src/model/common.rs` lines 6-14, a `bitflags!` bit-set
over `u8`. All values involved are below 256, so the `u8` width never
truncates and `bits` is embedded as a plain `Nat`. -/
structure TurnRule where
  bits : Nat
deriving DecidableEq, Repr

namespace TurnRule

/-- Rust `TurnRule::FRONT = 0b0000_0001`. -/
def FRONT : TurnRule := ⟨0b00000001⟩

/-- Rust `TurnRule::LEFT = 0b0000_0010`. -/
def LEFT : TurnRule := ⟨0b00000010⟩

/-- Rust `TurnRule::RIGHT = 0b0000_0100`. -/
def RIGHT : TurnRule := ⟨0b00000100⟩

/-- Rust `TurnRule::BACK = 0b0000_1000`. -/
def BACK : TurnRule := ⟨0b00001000⟩

/-- Rust `TurnRule::ALL = FRONT.bits | LEFT.bits | RIGHT.bits | BACK.bits`. -/
def ALL : TurnRule := ⟨FRONT.bits ||| LEFT.bits ||| RIGHT.bits ||| BACK.bits⟩

/-- Rust `bitflags`-generated `TurnRule::empty()`: the bit-set with no bits. -/
def empty : TurnRule := ⟨0⟩

/-- Rust `bitflags`-generated `TurnRule::intersects(other)`:
`self.bits & other.bits != 0`. -/
def intersects (self other : TurnRule) : Bool :=
  self.bits &&& other.bits ≠ 0

/-- Rust `bitflags`-generated `TurnRule::contains(other)`:
`self.bits & other.bits == other.bits`. -/
def contains (self other : TurnRule) : Bool :=
  self.bits &&& other.bits = other.bits

end TurnRule

/-- Rust `Around<T>` from `src/model/common.rs` lines 127-133: a fixed container
with one field per absolute direction. -/
structure Around (T : Type) where
  north : T
  west : T
  south : T
  east : T
deriving Repr

namespace Around

variable {T : Type}

/-- Rust `Around::get`, `src/model/common.rs` lines 136-144: returns a shared
reference to the field named after `direction`; embedded as returning the
field value itself. -/
def get (self : Around T) : AbsoluteDirection → T
  | .North => self.north
  | .West => self.west
  | .South => self.south
  | .East => self.east

/-- Rust `Around::get_mut`, `src/model/common.rs` lines 146-154, returns a mutable
reference to the same field `get` selects; a write through that reference is
embedded as this functional update of the selected field. -/
def set (self : Around T) (direction : AbsoluteDirection) (v : T) : Around T :=
  match direction with
  | .North => { self with north := v }
  | .West => { self with west := v }
  | .South => { self with south := v }
  | .East => { self with east := v }

end Around

/-- Modelled from the spec: a stateless `Lane` carries a `TurnRule` bit-set
(§3); the view reads its `direction_rule` field (`src/view/mod.rs` line 217).
The lane's other data (speed limit) is irrelevant to the claims. -/
structure Lane where
  direction_rule : TurnRule
deriving Repr

/-- Modelled from the spec: a stateless `Road` holds two opposing groups of
lanes, `lane_to_low` and `lane_to_high` (§3); the `stateless` module itself is
not under `src/`, but the view reads both fields directly
(`src/view/mod.rs` lines 162, 525-526). -/
structure Road where
  lane_to_low : List Lane
  lane_to_high : List Lane
deriving Repr

/-- Modelled from the spec: `lane_number()` is the total number of lanes in
both directions (§4.2); called by the view at `src/view/mod.rs` line 522. -/
def Road.lane_number (self : Road) : Nat :=
  self.lane_to_low.length + self.lane_to_high.length

/-- Modelled from the spec: `lanes_to_direction(lane_direction)` returns the
ordered lane group flowing in that direction (§4.2). -/
def Road.lanes_to_direction (self : Road) : LaneDirection → List Lane
  | .LowToHigh => self.lane_to_high
  | .HighToLow => self.lane_to_low

/-- Modelled from the spec: `is_one_way()` is true iff one direction's lane
group is empty (§4.2). -/
def Road.is_one_way (self : Road) : Bool :=
  self.lane_to_low.isEmpty || self.lane_to_high.isEmpty

/-- Rust `usize` subtraction `a - b`: defined only when `b ≤ a`; an underflow
(debug panic / release wraparound) is embedded as `none`. -/
def usize_sub (a b : Nat) : Option Nat :=
  if b ≤ a then some (a - b) else none

/-- Rust `View::lane_center_offset`, `src/view/mod.rs` lines 515-529.
`lane_width` is an `f64` in the source; the claims about this function concern
only the unsigned `lane_offset` arithmetic, so real-number geometry is
embedded over `ℚ`. The `HighToLow` branch computes
`road.lane_to_low.len() - 1 - lane_index` in `usize`, embedded with
`usize_sub` so that underflow yields `none`. -/
def View.lane_center_offset (road : Road) (lane_width : ℚ)
    (direction : LaneDirection) (lane_index : Nat) : Option ℚ :=
  let lane_number := road.lane_number
  let top : ℚ := -lane_width * (lane_number : ℚ) / 2
  match direction with
  | .HighToLow =>
      (usize_sub road.lane_to_low.length 1).bind fun x =>
        (usize_sub x lane_index).map fun lane_offset =>
          top + (lane_offset : ℚ) * lane_width
  | .LowToHigh =>
      some (top + ((road.lane_to_low.length + lane_index : Nat) : ℚ) * lane_width)

/-- Rust `stateful::car::Location` as matched by `View::draw_car`
(`src/view/mod.rs` lines 421-461): the three location variants with the field
lists the match binds. Scalar positions and proportions are `f64` in the
source, embedded over `ℚ`; road/intersection indices are grid coordinates. -/
inductive Location where
  | OnLane (road_direction : AxisDirection) (road_index : Nat × Nat)
      (lane_direction : LaneDirection) (lane_index : Nat) (position : ℚ)
  | ChangingLane (road_direction : AxisDirection) (road_index : Nat × Nat)
      (lane_direction : LaneDirection) (from_lane_index : Nat)
      (to_lane_index : Nat) (position : ℚ) (lane_changed_proportion : ℚ)
  | InIntersection (intersection_index : Nat × Nat)
      (from_direction : AbsoluteDirection) (from_lane_index : Nat)
      (to_direction : AbsoluteDirection) (to_lane_index : Nat)
      (in_intersection_proportion : ℚ)
deriving Repr

/-- True iff the location is the `ChangingLane` variant. -/
def Location.isChangingLane : Location → Bool
  | .ChangingLane .. => true
  | _ => false

/-- True iff the location is the `InIntersection` variant. -/
def Location.isInIntersection : Location → Bool
  | .InIntersection .. => true
  | _ => false

/-- True iff the location is the `OnLane` variant. -/
def Location.isOnLane : Location → Bool
  | .OnLane .. => true
  | _ => false

/-- Outcome of `View::draw_car`'s own dispatch on the car location:
either it proceeds to draw the car (recording the `OnLane` fields it hands to
the lane-centering transform and `draw_car_only`), or it reaches an
`unimplemented!` panic. -/
inductive CarDrawDispatch where
  | drawn (road_direction : AxisDirection) (road_index : Nat × Nat)
      (lane_direction : LaneDirection) (lane_index : Nat) (position : ℚ)
  | panicUnimplemented
deriving Repr, DecidableEq

/-- True iff the dispatch reached an `unimplemented!` panic. -/
def CarDrawDispatch.isPanic : CarDrawDispatch → Bool
  | .panicUnimplemented => true
  | _ => false

/-- Rust `View::draw_car`, `src/view/mod.rs` lines 413-462: the match on
`stateful.location`. The `OnLane` arm proceeds to draw (its geometry work is
delegated to `transform_to_lane_center`/`draw_car_only` with the bound
fields, recorded in `drawn`); the `ChangingLane` and `InIntersection` arms
are `unimplemented!()`. -/
def View.draw_car : Location → CarDrawDispatch
  | .OnLane rd ri ld li pos => .drawn rd ri ld li pos
  | .ChangingLane .. => .panicUnimplemented
  | .InIntersection .. => .panicUnimplemented

/-- The events the main loop matches on (`src/main.rs` lines 44-56):
`Event::Input`, `Event::Loop(Loop::Update)`, any other `Event::Loop`
(render/idle/after-render), and any other event. The payloads are abstract. -/
inductive Event (I U : Type) where
  | input (e : I)
  | loopUpdate (args : U)
  | loopOther
  | other
deriving Repr

/-- True iff the event is an `Event::Input`. -/
def Event.isInput {I U : Type} : Event I U → Bool
  | .input _ => true
  | _ => false

/-- True iff the event is an `Event::Loop(Loop::Update(..))`. -/
def Event.isLoopUpdate {I U : Type} : Event I U → Bool
  | .loopUpdate _ => true
  | _ => false

/-- One iteration of the main event loop, `src/main.rs` lines 35-57, as a
state-passing function over the stateful model `S`. The iteration first runs
the draw closure — `view.draw` borrows the models by shared reference, so its
embedding is a pure reader `draw : S → F` producing a frame — and then
dispatches on the event: `Event::Input` runs `controller.input`,
`Loop::Update` runs `controller.update` (both mutate the stateful model
through `&mut`, embedded as `S → S`), and every other event leaves the model
untouched. The controller module is not under `src/`, so `update` and `input`
are parameters. -/
def main_loop_step {S F I U : Type} (update : S → U → S) (input : S → I → S)
    (draw : S → F) (e : Event I U) (m : S) : S × F :=
  let frame := draw m
  let m2 : S :=
    match e with
    | .input ie => input m ie
    | .loopUpdate args => update m args
    | .loopOther => m
    | .other => m
  (m2, frame)

/-- Modelled from the spec: the Controller's car-following clamp for one
`OnLane` car (§4.4 step 1; the controller module is not under `src/`). A car
at scalar position `pos` with desired per-tick advance `adv ≥ 0` (speed ×
elapsed, bounded by the speed limit) moves to `pos + adv`, "clamped so a car
may never occupy the same lane position ahead of another car": with a car
ahead whose (already updated, front-to-back order per §5) position is `a`,
the new position may not exceed `a - car_length` (the rear of the car
ahead). With no car ahead it is unclamped. -/
def follow_clamp (car_length : ℚ) (ahead : Option ℚ) (pos adv : ℚ) : ℚ :=
  match ahead with
  | none => pos + adv
  | some a => min (pos + adv) (a - car_length)

/-- Modelled from the spec: one tick of the Controller's `OnLane` advancement
for the cars of a single lane (§4.4 step 1, §5). The lane's cars are listed
front-to-back, each paired with its desired advance for this tick; they are
processed "in a stable front-to-back order so that a car never leapfrogs the
one ahead of it", each clamped by `follow_clamp` against the position of the
car ahead as already updated this tick. Returns the end-of-tick positions,
front-to-back. -/
def advance_lane (car_length : ℚ) :
    Option ℚ → List (ℚ × ℚ) → List ℚ
  | _, [] => []
  | ahead, (pos, adv) :: rest =>
      let p := follow_clamp car_length ahead pos adv
      p :: advance_lane car_length (some p) rest

/-- Modelled from the spec: the no-collision invariant for one lane (§4.4
edge-case policy). Cars occupy position ranges of length `car_length` ending
at their scalar positions; listed front-to-back, no two ranges overlap iff
each car sits at least `car_length` behind the car directly ahead of it. -/
def NoOverlap (car_length : ℚ) (positions : List ℚ) : Prop :=
  List.Chain' (fun a b => b + car_length ≤ a) positions

/-- Modelled from the spec: the lane-content mutations of one Controller tick
(§4.4 steps 1-3, §5; the controller module is not under `src/`), as a
small-step relation over an abstract lane-indexed state: `s : L → List ℚ`
gives each lane's `OnLane` car positions front-to-back. The per-car update
loop performs a sequence of these actions:
* `advance` — §4.4 step 1: the cars of one lane advance by their requested
  per-car advances (speed × elapsed), clamped front-to-back by the
  car-following rule (`advance_lane`);
* `leave` — a car leaves its lane when it begins a `ChangingLane`
  transition (§4.4 step 1a) or enters an intersection (step 1b);
* `enter` — §4.4 steps 2-3: a completing `ChangingLane` car becomes
  `OnLane` in `to_lane_index` at its scalar position, and a completing
  `InIntersection` car becomes `OnLane` on the destination lane at
  position 0; the new lane order interleaves the entering car at its
  position (`entered` is a permutation of the old cars plus the entrant),
  and the edge-case policy — a blocked car "simply does not advance this
  tick — it is never forced into an illegal state" — means a completion
  only happens when the resulting placement is legal, so a taken `enter`
  step carries the no-overlap legality guard.
Proportion-advancing updates of `ChangingLane`/`InIntersection` cars that do
not complete leave every lane's contents untouched. -/
inductive TickStep (car_length : ℚ) {L : Type} [DecidableEq L] :
    (L → List ℚ) → (L → List ℚ) → Prop where
  | advance (s : L → List ℚ) (l : L) (advances : List ℚ)
      (hlen : advances.length = (s l).length) :
      TickStep car_length s
        (Function.update s l
          (advance_lane car_length none ((s l).zip advances)))
  | leave (s : L → List ℚ) (l : L) (i : Nat) :
      TickStep car_length s (Function.update s l ((s l).eraseIdx i))
  | enter (s : L → List ℚ) (l : L) (p : ℚ) (entered : List ℚ)
      (hperm : entered.Perm (p :: s l))
      (hlegal : NoOverlap car_length entered) :
      TickStep car_length s (Function.update s l entered)

/-- Concrete two-lane state for the tick witness: lane 0 holds length-4 cars
at positions 100 and 90, every other lane is empty. -/
def demo_lanes : Nat → List ℚ :=
  fun l => if l = 0 then [100, 90] else []

/-- The witness state after the clamped advancement of lane 0 with requested
advances 2 and 15. -/
def demo_lanes_mid : Nat → List ℚ :=
  Function.update demo_lanes 0
    (advance_lane 4 none ((demo_lanes 0).zip [2, 15]))

/-- The witness state after a car exiting an intersection enters the empty
lane 1 at position 0. -/
def demo_lanes_final : Nat → List ℚ :=
  Function.update demo_lanes_mid 1 [0]

/-- Auxiliary for the no-collision proof: every lane suffix advanced behind an
(already updated) car ahead at position `a` is overlap-free, and its first car
ends at least `car_length` behind `a`. -/
lemma advance_lane_some_spec (car_length : ℚ) (cars : List (ℚ × ℚ)) :
    ∀ a : ℚ,
      NoOverlap car_length (advance_lane car_length (some a) cars) ∧
      ∀ x ∈ (advance_lane car_length (some a) cars).head?,
        x + car_length ≤ a := by
  induction cars with
  | nil =>
      intro a
      exact ⟨List.chain'_nil, by simp [advance_lane]⟩
  | cons hd tl ih =>
      intro a
      obtain ⟨pos, adv⟩ := hd
      simp only [advance_lane, NoOverlap] at *
      constructor
      · rw [List.chain'_cons']
        exact ⟨(ih (follow_clamp car_length (some a) pos adv)).2,
          (ih (follow_clamp car_length (some a) pos adv)).1⟩
      · intro x hx
        simp only [List.head?_cons, Option.mem_def, Option.some.injEq] at hx
        subst hx
        have h := min_le_right (pos + adv) (a - car_length)
        simp only [follow_clamp]
        linarith [h]

/-!
## Claims
-/

/-- C1: for every `AbsoluteDirection` `d` and every `RelativeDirection` `r`,
`should_turn(d, turn(d, r)) = r`; `should_turn` with first argument `d` is a
left inverse of `turn(d, _)`. -/
theorem turn_should_turn_inverse :
    ∀ (d : AbsoluteDirection) (r : RelativeDirection),
      d.should_turn (d.turn r) = r := by
  decide

/-- C2: `of_lane` agrees with the fixed four-entry table, and it is a
bijection from the four `(axis, lane_direction)` pairs onto the four
`AbsoluteDirection` values. -/
theorem of_lane_table_and_bijective :
    (AbsoluteDirection.of_lane .Horizontal .LowToHigh = .West ∧
      AbsoluteDirection.of_lane .Horizontal .HighToLow = .East ∧
      AbsoluteDirection.of_lane .Vertical .LowToHigh = .South ∧
      AbsoluteDirection.of_lane .Vertical .HighToLow = .North) ∧
    Function.Bijective
      (fun p : HorizontalOrVertical × LaneDirection =>
        AbsoluteDirection.of_lane p.1 p.2) := by
  constructor
  · exact ⟨rfl, rfl, rfl, rfl⟩
  · decide

/-- The clamped advancement of one lane ends overlap-free whatever the lane
held and whatever advances the per-car speed rule requests: the front car is
unclamped and every later car is clamped behind the already-updated car
ahead of it. -/
lemma advance_lane_no_overlap (car_length : ℚ) (cars : List (ℚ × ℚ)) :
    NoOverlap car_length (advance_lane car_length none cars) := by
  cases cars with
  | nil => exact List.chain'_nil
  | cons hd tl =>
      obtain ⟨pos, adv⟩ := hd
      simp only [advance_lane, NoOverlap]
      rw [List.chain'_cons']
      exact ⟨(advance_lane_some_spec car_length tl
          (follow_clamp car_length none pos adv)).2,
        (advance_lane_some_spec car_length tl
          (follow_clamp car_length none pos adv)).1⟩

/-- Removing a car from an overlap-free lane (it changes lane or enters an
intersection) keeps the lane overlap-free: for a nonnegative car length the
gap relation is transitive, so it survives taking a sublist. -/
lemma no_overlap_eraseIdx (car_length : ℚ) (h0 : 0 ≤ car_length)
    (l : List ℚ) (h : NoOverlap car_length l) (i : Nat) :
    NoOverlap car_length (l.eraseIdx i) := by
  haveI : IsTrans ℚ (fun a b => b + car_length ≤ a) :=
    ⟨fun a b c hab hbc => by linarith⟩
  exact List.Chain'.sublist h (List.eraseIdx_sublist l i)

/-- One atomic lane-content action of the tick preserves the per-lane
no-overlap invariant. -/
lemma tick_step_no_overlap {L : Type} [DecidableEq L] (car_length : ℚ)
    (h0 : 0 ≤ car_length) {s s2 : L → List ℚ}
    (hstep : TickStep car_length s s2)
    (hinv : ∀ l, NoOverlap car_length (s l)) :
    ∀ l, NoOverlap car_length (s2 l) := by
  cases hstep with
  | advance l advances hlen =>
      intro l2
      by_cases h : l2 = l
      · subst h
        simp only [Function.update_same]
        exact advance_lane_no_overlap car_length _
      · simp only [Function.update_noteq h]
        exact hinv l2
  | leave l i =>
      intro l2
      by_cases h : l2 = l
      · subst h
        simp only [Function.update_same]
        exact no_overlap_eraseIdx car_length h0 (s l2) (hinv l2) i
      · simp only [Function.update_noteq h]
        exact hinv l2
  | enter l p entered hperm hlegal =>
      intro l2
      by_cases h : l2 = l
      · subst h
        simp only [Function.update_same]
        exact hlegal
      · simp only [Function.update_noteq h]
        exact hinv l2

/-- C3 (modelled from the spec: the controller module is not under `src/`):
every tick of the Controller's update preserves the no-collision invariant.
A tick's effect on the lanes is any finite sequence of `TickStep` actions —
clamped `OnLane` advancement (§4.4 step 1), lane departures into
`ChangingLane`/`InIntersection`, and the legality-guarded lane entries of
`ChangingLane`/`InIntersection` completions (§4.4 steps 2-3) — and if every
lane starts the tick with non-overlapping position ranges, every lane ends
it with non-overlapping position ranges. -/
theorem controller_tick_preserves_no_overlap {L : Type} [DecidableEq L]
    (car_length : ℚ) (h0 : 0 ≤ car_length) {s s2 : L → List ℚ}
    (htick : Relation.ReflTransGen (TickStep car_length) s s2)
    (hinv : ∀ l, NoOverlap car_length (s l)) :
    ∀ l, NoOverlap car_length (s2 l) := by
  induction htick with
  | refl => exact hinv
  | tail _ hstep ih => exact tick_step_no_overlap car_length h0 hstep ih

/-- Witness for C3: starting from lane 0 holding length-4 cars at positions
100 and 90 (collision-free) and lane 1 empty, a tick that advances lane 0
with requested advances 2 and 15 and then lets a car exiting an intersection
enter lane 1 at position 0 ends with both lanes collision-free. -/
theorem controller_tick_preserves_no_overlap_witness :
    (0 : ℚ) ≤ 4 ∧
    NoOverlap 4 (demo_lanes 0) ∧ NoOverlap 4 (demo_lanes 1) ∧
    NoOverlap 4 (demo_lanes_final 0) ∧ NoOverlap 4 (demo_lanes_final 1) := by
  have hinv : ∀ l, NoOverlap 4 (demo_lanes l) := by
    intro l
    by_cases h : l = 0
    · subst h
      simp only [demo_lanes, if_pos rfl, NoOverlap, List.chain'_cons,
        List.chain'_singleton, and_true]
      norm_num
    · simp [demo_lanes, h, NoOverlap]
  have hstep1 : TickStep 4 demo_lanes demo_lanes_mid :=
    TickStep.advance demo_lanes 0 [2, 15] rfl
  have hstep2 : TickStep 4 demo_lanes_mid demo_lanes_final := by
    refine TickStep.enter demo_lanes_mid 1 0 [0] ?_ ?_
    · have h1 : demo_lanes_mid 1 = [] := by
        simp only [demo_lanes_mid]
        rw [Function.update_noteq (by decide)]
        simp [demo_lanes]
      rw [h1]
    · simp [NoOverlap]
  have hfin := controller_tick_preserves_no_overlap 4 (by norm_num)
    (Relation.ReflTransGen.tail (Relation.ReflTransGen.single hstep1) hstep2)
    hinv
  exact ⟨by norm_num, hinv 0, hinv 1, hfin 0, hfin 1⟩

/-- C4: `View::draw_car` reaches its `unimplemented!` panic exactly when the
stateful car's location is the `ChangingLane` or `InIntersection` variant;
for an `OnLane` location its dispatch proceeds to draw the car. -/
theorem draw_car_panics_iff :
    (∀ loc : Location,
      (View.draw_car loc).isPanic =
        (loc.isChangingLane || loc.isInIntersection)) ∧
    ∀ rd ri ld li pos,
      View.draw_car (.OnLane rd ri ld li pos) = .drawn rd ri ld li pos := by
  constructor
  · intro loc
    cases loc <;> rfl
  · intro rd ri ld li pos
    rfl

/-- C5: the `TurnRule` constants `FRONT`, `LEFT`, `RIGHT`, `BACK` are pairwise
disjoint, `ALL` is their union, and each named constant intersects and is
contained in `ALL`. -/
theorem turn_rule_constants :
    (TurnRule.FRONT.intersects TurnRule.LEFT = false ∧
      TurnRule.FRONT.intersects TurnRule.RIGHT = false ∧
      TurnRule.FRONT.intersects TurnRule.BACK = false ∧
      TurnRule.LEFT.intersects TurnRule.RIGHT = false ∧
      TurnRule.LEFT.intersects TurnRule.BACK = false ∧
      TurnRule.RIGHT.intersects TurnRule.BACK = false) ∧
    TurnRule.ALL.bits =
      TurnRule.FRONT.bits ||| TurnRule.LEFT.bits |||
        TurnRule.RIGHT.bits ||| TurnRule.BACK.bits ∧
    (TurnRule.ALL.intersects TurnRule.FRONT = true ∧
      TurnRule.ALL.intersects TurnRule.LEFT = true ∧
      TurnRule.ALL.intersects TurnRule.RIGHT = true ∧
      TurnRule.ALL.intersects TurnRule.BACK = true) ∧
    (TurnRule.ALL.contains TurnRule.FRONT = true ∧
      TurnRule.ALL.contains TurnRule.LEFT = true ∧
      TurnRule.ALL.contains TurnRule.RIGHT = true ∧
      TurnRule.ALL.contains TurnRule.BACK = true) := by
  decide

/-- C6: one main-loop iteration renders without mutating the simulation
state: the post-iteration stateful model does not depend on the draw
function, the emitted frame is drawn from the pre-dispatch model, the model
is unchanged on any event other than `Input` or `Loop::Update`, and only
`controller.input` / `controller.update` produce the new model on those two
events. -/
theorem main_loop_draw_does_not_mutate :
    ∀ (S F I U : Type) (update : S → U → S) (input : S → I → S)
      (draw draw2 : S → F) (e : Event I U) (m : S),
      (main_loop_step update input draw e m).1 =
        (main_loop_step update input draw2 e m).1 ∧
      (main_loop_step update input draw e m).2 = draw m ∧
      (e.isInput = false → e.isLoopUpdate = false →
        (main_loop_step update input draw e m).1 = m) ∧
      (∀ ie, (main_loop_step update input draw (.input ie) m).1 =
        input m ie) ∧
      (∀ args, (main_loop_step update input draw (.loopUpdate args) m).1 =
        update m args) := by
  intro S F I U update input draw draw2 e m
  refine ⟨?_, rfl, ?_, fun ie => rfl, fun args => rfl⟩
  · cases e <;> rfl
  · intro h1 h2
    cases e with
    | input ie => simp [Event.isInput] at h1
    | loopUpdate args => simp [Event.isLoopUpdate] at h2
    | loopOther => rfl
    | other => rfl

/-- Witness for C6: on a concrete render-only (`loopOther`) event over
`Nat` state, the stateful model `5` is unchanged by the iteration. -/
theorem main_loop_draw_does_not_mutate_witness :
    (Event.loopOther : Event Nat Nat).isInput = false ∧
    (Event.loopOther : Event Nat Nat).isLoopUpdate = false ∧
    (main_loop_step (fun s (_ : Nat) => s + 1) (fun s (_ : Nat) => s + 2)
      (fun s => s * 10) (Event.loopOther : Event Nat Nat) 5).1 = 5 :=
  ⟨rfl, rfl,
    (main_loop_draw_does_not_mutate Nat Nat Nat Nat
      (fun s _ => s + 1) (fun s _ => s + 2) (fun s => s * 10)
      (fun s => s * 10) Event.loopOther 5).2.2.1 rfl rfl⟩

/-- C7: `Around::get` returns exactly the field named after the direction,
`get_mut` (embedded as `set`) writes that same field, and a write through it
leaves the other three fields unchanged. -/
theorem around_get_set_frame :
    ∀ (T : Type) (a : Around T) (d : AbsoluteDirection) (v : T),
      (a.get .North = a.north ∧ a.get .West = a.west ∧
        a.get .South = a.south ∧ a.get .East = a.east) ∧
      (a.set d v).get d = v ∧
      ∀ d2, d2 ≠ d → (a.set d v).get d2 = a.get d2 := by
  intro T a d v
  refine ⟨⟨rfl, rfl, rfl, rfl⟩, ?_, ?_⟩
  · cases d <;> rfl
  · intro d2 h
    cases d <;> cases d2 <;> first | rfl | exact absurd rfl h

/-- Witness for C7: writing `9` through the north slot of a concrete
`Around Nat` leaves the south slot unchanged. -/
theorem around_get_set_frame_witness :
    AbsoluteDirection.South ≠ AbsoluteDirection.North ∧
    ((Around.mk 1 2 3 4 : Around Nat).set .North 9).get .South =
      (Around.mk 1 2 3 4 : Around Nat).get .South :=
  ⟨by decide,
    (around_get_set_frame Nat (Around.mk 1 2 3 4) .North 9).2.2
      .South (by decide)⟩

/-- C8: for every pair of absolute directions `d`, `d2`,
`turn(d, should_turn(d, d2)) = d2`, and `turn(d, _)` is a bijection from
`RelativeDirection` onto `AbsoluteDirection` for each fixed `d`. -/
theorem should_turn_turn_inverse :
    (∀ d d2 : AbsoluteDirection, d.turn (d.should_turn d2) = d2) ∧
    ∀ d : AbsoluteDirection, Function.Bijective d.turn := by
  constructor
  · decide
  · decide

/-- C9: `turn_left` follows the screen-coordinate cycle
North→East→South→West→North, `turn_right` is its exact two-sided inverse,
and `turn_opposite` is `turn_left` applied twice. -/
theorem turn_left_cycle_and_inverses :
    (AbsoluteDirection.North.turn_left = .East ∧
      AbsoluteDirection.East.turn_left = .South ∧
      AbsoluteDirection.South.turn_left = .West ∧
      AbsoluteDirection.West.turn_left = .North) ∧
    (∀ d : AbsoluteDirection,
      d.turn_left.turn_right = d ∧ d.turn_right.turn_left = d) ∧
    ∀ d : AbsoluteDirection, d.turn_opposite = d.turn_left.turn_left := by
  refine ⟨⟨rfl, rfl, rfl, rfl⟩, ?_, ?_⟩ <;> decide

/-- C10: `View::lane_center_offset` with direction `HighToLow` is
well-defined exactly when `lane_index < road.lane_to_low.len()` — in
particular it underflows for every `lane_index` when `lane_to_low` is empty —
and where defined it computes `lane_to_low.len() - 1 - lane_index` lanes from
the top; with `LowToHigh` it is total. -/
theorem lane_center_offset_domain :
    ∀ (road : Road) (lane_width : ℚ) (lane_index : Nat),
      ((View.lane_center_offset road lane_width .HighToLow lane_index).isSome
        ↔ lane_index < road.lane_to_low.length) ∧
      (road.lane_to_low.length = 0 →
        View.lane_center_offset road lane_width .HighToLow lane_index
          = none) ∧
      (View.lane_center_offset road lane_width .LowToHigh lane_index).isSome
        ∧
      (lane_index < road.lane_to_low.length →
        View.lane_center_offset road lane_width .HighToLow lane_index =
          some (-lane_width * (road.lane_number : ℚ) / 2 +
            ((road.lane_to_low.length - 1 - lane_index : Nat) : ℚ) *
              lane_width)) := by
  intro road lane_width lane_index
  refine ⟨?_, ?_, ?_, ?_⟩
  · simp only [View.lane_center_offset, usize_sub]
    by_cases h1 : 1 ≤ road.lane_to_low.length
    · by_cases h2 : lane_index ≤ road.lane_to_low.length - 1
      · simp [h1, h2]
        omega
      · simp [h1, h2]
        omega
    · simp [h1]
      omega
  · intro h0
    simp [View.lane_center_offset, usize_sub, h0]
  · simp [View.lane_center_offset]
  · intro hlt
    have h1 : 1 ≤ road.lane_to_low.length := by omega
    have h2 : lane_index ≤ road.lane_to_low.length - 1 := by omega
    simp only [View.lane_center_offset, usize_sub, h1, if_true, h2,
      Option.some_bind, Option.map_some]
    rfl

/-- Witness for C10: on a road with two `lane_to_low` lanes, lane index 0 is
in range and the offset is defined; on a road with empty `lane_to_low` (a
one-way road), the `HighToLow` offset underflows for index 0. -/
theorem lane_center_offset_domain_witness :
    (0 : Nat) < 2 ∧
    (View.lane_center_offset
      (Road.mk [Lane.mk TurnRule.ALL, Lane.mk TurnRule.ALL] []) 2
      .HighToLow 0).isSome ∧
    ([] : List Lane).length = 0 ∧
    View.lane_center_offset (Road.mk [] [Lane.mk TurnRule.ALL]) 2
      .HighToLow 0 = none :=
  ⟨by decide,
    (lane_center_offset_domain
      (Road.mk [Lane.mk TurnRule.ALL, Lane.mk TurnRule.ALL] []) 2 0).1.mpr
      (by decide),
    rfl,
    (lane_center_offset_domain (Road.mk [] [Lane.mk TurnRule.ALL]) 2 0).2.1
      rfl⟩

end MpiTraffic
